import Mathlib

/-!
Shallow embedding of `src/winrt/lib/brushes/CanvasImageBrush.cpp` (Win2D).

`CanvasImageBrush` wraps exactly one of two native Direct2D brushes: a
bitmap brush (`m_d2dBitmapBrush`) or a general image brush
(`m_d2dImageBrush`).  The embedding models the brush's own state machine
faithfully, statement by statement.  External collaborators that live
outside `src/` (the device's `CreateBitmapBrush` / `CreateImageBrush` /
`GetD2DImage`, the `Rect` ↔ `D2D1_RECT_F` conversion helpers, and the
D2D default property values of freshly created brushes) are modelled
from the spec where noted.

Native floating-point property values that the brush only stores and
copies (opacity, transform entries, rectangle coordinates, DPI) are
modelled as exact integers: the brush performs no arithmetic on them
other than the rect conversions, which are exact over the reals.
-/

set_option autoImplicit false
set_option linter.unnecessarySeqFocus false

/-- `CanvasEdgeBehavior` enum; cast numerically to `D2D1_EXTEND_MODE`. -/
inductive CanvasEdgeBehavior
  | clamp
  | wrap
  | mirror
deriving DecidableEq, Repr

/-- `CanvasImageInterpolation` enum; cast numerically to `D2D1_INTERPOLATION_MODE`. -/
inductive CanvasImageInterpolation
  | nearestNeighbor
  | linear
  | cubic
  | multiSampleLinear
  | anisotropic
  | highQualityCubic
deriving DecidableEq, Repr

/-- A `D2D1_MATRIX_3X2_F` 2-D affine transform; entries modelled exactly. -/
structure Matrix3x2F where
  m11 : Int
  m12 : Int
  m21 : Int
  m22 : Int
  dx : Int
  dy : Int
deriving DecidableEq, Repr

/-- The identity transform carried by a freshly created D2D brush. -/
def identityMatrix3x2 : Matrix3x2F := ⟨1, 0, 0, 1, 0, 0⟩

/-- A WinRT `Rect` `{x, y, width, height}`. -/
structure Rect where
  x : Int
  y : Int
  width : Int
  height : Int
deriving DecidableEq, Repr

/-- A `D2D1_RECT_F` `{left, top, right, bottom}`. -/
structure D2DRectF where
  left : Int
  top : Int
  right : Int
  bottom : Int
deriving DecidableEq, Repr

/-- Modelled from the spec: the `ToD2DRect` conversion helper lives outside
`src/`; a WinRT x/y/width/height rect converts to left/top/right/bottom. -/
def ToD2DRect (r : Rect) : D2DRectF :=
  ⟨r.x, r.y, r.x + r.width, r.y + r.height⟩

/-- Modelled from the spec: the `FromD2DRect` conversion helper lives outside
`src/`; the inverse of `ToD2DRect`. -/
def FromD2DRect (r : D2DRectF) : Rect :=
  ⟨r.left, r.top, r.right - r.left, r.bottom - r.top⟩

/-- The `D2D1_RECT_F defaultRect{}` zero-initialised rectangle. -/
def defaultD2DRect : D2DRectF := ⟨0, 0, 0, 0⟩

/-- An `ICanvasImage` argument, classified by the runtime type checks the
source performs on it (`MaybeAs<ICanvasBitmap>`, `MaybeAs<IGraphicsEffect>`).
`invalid` is modelled from the spec: an image whose resolution to a native
form via the device fails. -/
inductive CanvasImage
  | bitmap (id : Nat)
  | effect (id : Nat)
  | commandList (id : Nat)
  | invalid (id : Nat)
deriving DecidableEq, Repr

/-- A native `ID2D1Image`, classified by whether `QueryInterface` to
`ID2D1Bitmap1` succeeds on it (the check `TrySwitchFromImageBrushToBitmapBrush`
performs). -/
inductive D2DImage
  | bitmap (id : Nat)
  | nonBitmap (id : Nat)
deriving DecidableEq, Repr

/-- `MaybeAs<ICanvasBitmap>(image)`, returning the underlying D2D bitmap id. -/
def maybeAsBitmap : CanvasImage → Option Nat
  | .bitmap n => some n
  | _ => none

/-- `MaybeAs<IGraphicsEffect>(image)`. -/
def isGraphicsEffect : CanvasImage → Bool
  | .effect _ => true
  | _ => false

/-- State of a native `ID2D1BitmapBrush1`. -/
structure D2DBitmapBrushState where
  bitmap : Option Nat
  extendX : CanvasEdgeBehavior
  extendY : CanvasEdgeBehavior
  interpolationMode : CanvasImageInterpolation
  opacity : Int
  transform : Matrix3x2F
deriving DecidableEq, Repr

/-- State of a native `ID2D1ImageBrush`. -/
structure D2DImageBrushState where
  image : Option D2DImage
  extendX : CanvasEdgeBehavior
  extendY : CanvasEdgeBehavior
  interpolationMode : CanvasImageInterpolation
  opacity : Int
  transform : Matrix3x2F
  sourceRectangle : D2DRectF
deriving DecidableEq, Repr

/-- Modelled from the spec: `ICanvasDeviceInternal::CreateBitmapBrush` /
`CreateImageBrush` live outside `src/`; creation of a native brush is a
fallible operation (spec §7: "if creation fails, the old representation
remains intact"), modelled by these flags. -/
structure CanvasDevice where
  createBitmapBrushOk : Bool
  createImageBrushOk : Bool
deriving DecidableEq, Repr

/-- Error outcomes of the brush's operations. -/
inductive Err
  /-- `EnsureNotClosed` on the closed `m_device` (use after close). -/
  | objectClosed
  /-- `ThrowHR(E_INVALIDARG, Strings::ImageBrushRequiresSourceRectangle)`. -/
  | imageBrushRequiresSourceRectangle
  /-- Modelled from the spec: `GetD2DImage` on the device fails to resolve
  the image to a native form. -/
  | resolutionFailed
  /-- Modelled from the spec: native brush creation fails. -/
  | creationFailed
  /-- Modelled from the spec: `IReference<Rect>::get_Value` fails. -/
  | rectRefValueFailed
  /-- A call through a null native brush pointer (unreachable from states
  satisfying the exactly-one-representation invariant). -/
  | nullDeref
deriving DecidableEq, Repr

/-- The fields of `CanvasImageBrush` relevant to its state machine.
`m_deviceClosed` models the `ClosablePtr m_device` having been closed by
`CanvasBrush::Close` (after which `EnsureNotClosed` throws). -/
structure CanvasImageBrushState where
  m_d2dBitmapBrush : Option D2DBitmapBrushState
  m_d2dImageBrush : Option D2DImageBrushState
  m_isSourceRectSet : Bool
  m_effectNeedingDpiFixup : Option CanvasImage
  m_deviceClosed : Bool
deriving DecidableEq, Repr

/-- Modelled from the spec: the property values a freshly created D2D
bitmap brush carries (D2D defaults: clamp extend modes, linear
interpolation, opacity 1, identity transform). -/
def freshD2DBitmapBrushState (bitmap : Option Nat) : D2DBitmapBrushState :=
  { bitmap
    extendX := .clamp
    extendY := .clamp
    interpolationMode := .linear
    opacity := 1
    transform := identityMatrix3x2 }

/-- Modelled from the spec: the property values a freshly created D2D
image brush carries (D2D defaults, zero source rectangle). -/
def freshD2DImageBrushState (image : Option D2DImage) : D2DImageBrushState :=
  { image
    extendX := .clamp
    extendY := .clamp
    interpolationMode := .linear
    opacity := 1
    transform := identityMatrix3x2
    sourceRectangle := defaultD2DRect }

/-- Modelled from the spec: `ICanvasDeviceInternal::GetD2DImage` (outside
`src/`) resolves an `ICanvasImage` to a native `ID2D1Image`; a bitmap
resolves to its D2D bitmap, an effect or command list to a non-bitmap
image, and `invalid` fails. -/
def CanvasDevice.GetD2DImage (_device : CanvasDevice) : CanvasImage → Except Err D2DImage
  | .bitmap n => .ok (.bitmap n)
  | .effect n => .ok (.nonBitmap n)
  | .commandList n => .ok (.nonBitmap n)
  | .invalid _ => .error .resolutionFailed

/-- A native call recorded while a representation switch runs, in program
order (used to state the fixed copy order of `SwitchToImageBrush` /
`SwitchToBitmapBrush`). -/
inductive SwitchEvent
  | createBrush
  | setExtendModeX (v : CanvasEdgeBehavior)
  | setExtendModeY (v : CanvasEdgeBehavior)
  | setInterpolationMode (v : CanvasImageInterpolation)
  | setOpacity (v : Int)
  | setTransform (v : Matrix3x2F)
  | releaseOld
  | setResource
deriving DecidableEq, Repr

/-- `CanvasImageBrush::SwitchToImageBrush` (lines 454–474): create the new
image brush; if a bitmap brush is populated, copy extend X, extend Y,
interpolation, opacity and transform across and release it; register the
new brush as the wrapped resource.  Also returns the trace of native calls
in program order. -/
def SwitchToImageBrush (device : CanvasDevice) (b : CanvasImageBrushState)
    (image : Option D2DImage) :
    Except Err (CanvasImageBrushState × List SwitchEvent) :=
  if b.m_deviceClosed then .error .objectClosed
  else if !device.createImageBrushOk then .error .creationFailed
  else
    let newBrush := freshD2DImageBrushState image
    match b.m_d2dBitmapBrush with
    | some old =>
        let newBrush :=
          { newBrush with
              extendX := old.extendX
              extendY := old.extendY
              interpolationMode := old.interpolationMode
              opacity := old.opacity
              transform := old.transform }
        .ok ({ b with m_d2dImageBrush := some newBrush, m_d2dBitmapBrush := none },
             [.createBrush, .setExtendModeX old.extendX, .setExtendModeY old.extendY,
              .setInterpolationMode old.interpolationMode, .setOpacity old.opacity,
              .setTransform old.transform, .releaseOld, .setResource])
    | none =>
        .ok ({ b with m_d2dImageBrush := some newBrush },
             [.createBrush, .setResource])

/-- `CanvasImageBrush::SwitchToBitmapBrush` (lines 476–497): the mirror
image of `SwitchToImageBrush`. -/
def SwitchToBitmapBrush (device : CanvasDevice) (b : CanvasImageBrushState)
    (bitmap : Option Nat) :
    Except Err (CanvasImageBrushState × List SwitchEvent) :=
  if b.m_deviceClosed then .error .objectClosed
  else if !device.createBitmapBrushOk then .error .creationFailed
  else
    let newBrush := freshD2DBitmapBrushState bitmap
    match b.m_d2dImageBrush with
    | some old =>
        let newBrush :=
          { newBrush with
              extendX := old.extendX
              extendY := old.extendY
              interpolationMode := old.interpolationMode
              opacity := old.opacity
              transform := old.transform }
        .ok ({ b with m_d2dBitmapBrush := some newBrush, m_d2dImageBrush := none },
             [.createBrush, .setExtendModeX old.extendX, .setExtendModeY old.extendY,
              .setInterpolationMode old.interpolationMode, .setOpacity old.opacity,
              .setTransform old.transform, .releaseOld, .setResource])
    | none =>
        .ok ({ b with m_d2dBitmapBrush := some newBrush },
             [.createBrush, .setResource])

/-- `CanvasImageBrush::TrySwitchFromImageBrushToBitmapBrush` (lines
499–521): read the image bound to the general brush; if it is not a
plain bitmap, return unchanged; otherwise switch to a bitmap brush bound
to that bitmap (or to nothing). -/
def TrySwitchFromImageBrushToBitmapBrush (device : CanvasDevice)
    (b : CanvasImageBrushState) : Except Err CanvasImageBrushState :=
  match b.m_d2dImageBrush with
  | none => .error .nullDeref
  | some ib =>
      match ib.image with
      | some (.nonBitmap _) => .ok b
      | some (.bitmap n) => (SwitchToBitmapBrush device b (some n)).map (·.1)
      | none => (SwitchToBitmapBrush device b none).map (·.1)

/-- `CanvasImageBrush::SetImage` (lines 86–140).  Returns the brush state
after the call together with the error, if any, that escaped: the C++
object keeps every mutation made before a throw, so the state is returned
even on failure. -/
def SetImage (device : CanvasDevice) (b : CanvasImageBrushState)
    (image : Option CanvasImage) : CanvasImageBrushState × Option Err :=
  let b := { b with m_effectNeedingDpiFixup := none }
  match image with
  | none =>
      match b.m_d2dBitmapBrush with
      | some bb => ({ b with m_d2dBitmapBrush := some { bb with bitmap := none } }, none)
      | none =>
          match b.m_d2dImageBrush with
          | some ib => ({ b with m_d2dImageBrush := some { ib with image := none } }, none)
          | none => (b, some .nullDeref)
  | some img =>
      match maybeAsBitmap img, b.m_isSourceRectSet with
      | some d2dBitmap, false =>
          -- Use a bitmap brush.
          (match b.m_d2dBitmapBrush with
           | some bb => ({ b with m_d2dBitmapBrush := some { bb with bitmap := some d2dBitmap } }, none)
           | none =>
               match SwitchToBitmapBrush device b (some d2dBitmap) with
               | .error e => (b, some e)
               | .ok (b', _) => (b', none))
      | _, _ =>
          -- Use an image brush.
          if b.m_deviceClosed then (b, some .objectClosed)
          else
            match device.GetD2DImage img with
            | .error e => (b, some e)
            | .ok d2dImage =>
                let step : Except Err CanvasImageBrushState :=
                  match b.m_d2dImageBrush with
                  | some ib => .ok { b with m_d2dImageBrush := some { ib with image := some d2dImage } }
                  | none => (SwitchToImageBrush device b (some d2dImage)).map (·.1)
                match step with
                | .error e => (b, some e)
                | .ok b' =>
                    if isGraphicsEffect img then
                      ({ b' with m_effectNeedingDpiFixup := some img }, none)
                    else
                      (b', none)

/-- `CanvasImageBrush::GetD2DImage` const method (lines 160–178): the
image currently bound to whichever native brush is live. -/
def GetD2DImage (b : CanvasImageBrushState) : Except Err (Option D2DImage) :=
  match b.m_d2dBitmapBrush with
  | some bb => .ok (bb.bitmap.map D2DImage.bitmap)
  | none =>
      match b.m_d2dImageBrush with
      | some ib => .ok ib.image
      | none => .error .nullDeref

/-- `CanvasImageBrush::get_Image` (lines 142–158): fails if closed, then
returns the currently bound image (wrapped; absent when none is bound). -/
def get_Image (b : CanvasImageBrushState) : Except Err (Option D2DImage) :=
  if b.m_deviceClosed then .error .objectClosed
  else GetD2DImage b

/-- `CanvasImageBrush::put_Image` (lines 180–191). -/
def put_Image (device : CanvasDevice) (b : CanvasImageBrushState)
    (value : Option CanvasImage) : CanvasImageBrushState × Option Err :=
  if b.m_deviceClosed then (b, some .objectClosed)
  else SetImage device b value

/-- `CanvasImageBrush::get_ExtendX` (lines 193–211). -/
def get_ExtendX (b : CanvasImageBrushState) : Except Err CanvasEdgeBehavior :=
  if b.m_deviceClosed then .error .objectClosed
  else
    match b.m_d2dBitmapBrush with
    | some bb => .ok bb.extendX
    | none =>
        match b.m_d2dImageBrush with
        | some ib => .ok ib.extendX
        | none => .error .nullDeref

/-- `CanvasImageBrush::put_ExtendX` (lines 213–227). -/
def put_ExtendX (b : CanvasImageBrushState) (value : CanvasEdgeBehavior) :
    CanvasImageBrushState × Option Err :=
  if b.m_deviceClosed then (b, some .objectClosed)
  else
    match b.m_d2dBitmapBrush with
    | some bb => ({ b with m_d2dBitmapBrush := some { bb with extendX := value } }, none)
    | none =>
        match b.m_d2dImageBrush with
        | some ib => ({ b with m_d2dImageBrush := some { ib with extendX := value } }, none)
        | none => (b, some .nullDeref)

/-- `CanvasImageBrush::get_ExtendY` (lines 229–247). -/
def get_ExtendY (b : CanvasImageBrushState) : Except Err CanvasEdgeBehavior :=
  if b.m_deviceClosed then .error .objectClosed
  else
    match b.m_d2dBitmapBrush with
    | some bb => .ok bb.extendY
    | none =>
        match b.m_d2dImageBrush with
        | some ib => .ok ib.extendY
        | none => .error .nullDeref

/-- `CanvasImageBrush::put_ExtendY` (lines 249–263). -/
def put_ExtendY (b : CanvasImageBrushState) (value : CanvasEdgeBehavior) :
    CanvasImageBrushState × Option Err :=
  if b.m_deviceClosed then (b, some .objectClosed)
  else
    match b.m_d2dBitmapBrush with
    | some bb => ({ b with m_d2dBitmapBrush := some { bb with extendY := value } }, none)
    | none =>
        match b.m_d2dImageBrush with
        | some ib => ({ b with m_d2dImageBrush := some { ib with extendY := value } }, none)
        | none => (b, some .nullDeref)

/-- `CanvasImageBrush::get_Interpolation` (lines 346–364). -/
def get_Interpolation (b : CanvasImageBrushState) :
    Except Err CanvasImageInterpolation :=
  if b.m_deviceClosed then .error .objectClosed
  else
    match b.m_d2dBitmapBrush with
    | some bb => .ok bb.interpolationMode
    | none =>
        match b.m_d2dImageBrush with
        | some ib => .ok ib.interpolationMode
        | none => .error .nullDeref

/-- `CanvasImageBrush::put_Interpolation` (lines 366–380). -/
def put_Interpolation (b : CanvasImageBrushState)
    (value : CanvasImageInterpolation) : CanvasImageBrushState × Option Err :=
  if b.m_deviceClosed then (b, some .objectClosed)
  else
    match b.m_d2dBitmapBrush with
    | some bb => ({ b with m_d2dBitmapBrush := some { bb with interpolationMode := value } }, none)
    | none =>
        match b.m_d2dImageBrush with
        | some ib => ({ b with m_d2dImageBrush := some { ib with interpolationMode := value } }, none)
        | none => (b, some .nullDeref)

/-- `CanvasImageBrush::get_SourceRectangle` (lines 265–288): returns a
rectangle only when the image brush is live and a source rect was set;
otherwise absent (in particular, always absent for the bitmap brush). -/
def get_SourceRectangle (b : CanvasImageBrushState) : Except Err (Option Rect) :=
  if b.m_deviceClosed then .error .objectClosed
  else
    match b.m_d2dImageBrush, b.m_isSourceRectSet with
    | some ib, true => .ok (some (FromD2DRect ib.sourceRectangle))
    | _, _ => .ok none

/-- An `IReference<Rect>*` argument: a null pointer, a readable reference,
or (modelled from the spec) a reference whose `get_Value` fails. -/
inductive RectRef
  | null
  | valid (r : Rect)
  | broken
deriving DecidableEq, Repr

/-- `GetD2DRectFromRectReference` (lines 290–295): read the rect out of a
non-null reference and convert it. -/
def GetD2DRectFromRectReference : RectRef → Except Err D2DRectF
  | .null => .error .nullDeref
  | .valid r => .ok (ToD2DRect r)
  | .broken => .error .rectRefValueFailed

/-- `CanvasImageBrush::put_SourceRectangle` (lines 297–344).  Returns the
state after the call and the escaping error, if any; mutations made
before a throw are kept, exactly as in the C++ object. -/
def put_SourceRectangle (device : CanvasDevice) (b : CanvasImageBrushState)
    (value : RectRef) : CanvasImageBrushState × Option Err :=
  if b.m_deviceClosed then (b, some .objectClosed)
  else
    match b.m_d2dBitmapBrush with
    | some bb =>
        (match value with
         | .null => (b, none)  -- If value is null, do nothing.
         | v =>
             match SwitchToImageBrush device b (bb.bitmap.map D2DImage.bitmap) with
             | .error e => (b, some e)
             | .ok (b', _) =>
                 match GetD2DRectFromRectReference v with
                 | .error e => (b', some e)
                 | .ok d2dRect =>
                     match b'.m_d2dImageBrush with
                     | some ib =>
                         ({ b' with
                              m_d2dImageBrush := some { ib with sourceRectangle := d2dRect }
                              m_isSourceRectSet := true }, none)
                     | none => (b', some .nullDeref))
    | none =>
        match value with
        | .null =>
            match b.m_d2dImageBrush with
            | some ib =>
                let b' := { b with
                              m_d2dImageBrush := some { ib with sourceRectangle := defaultD2DRect }
                              m_isSourceRectSet := false }
                (match TrySwitchFromImageBrushToBitmapBrush device b' with
                 | .error e => (b', some e)
                 | .ok b'' => (b'', none))
            | none => (b, some .nullDeref)
        | v =>
            match GetD2DRectFromRectReference v with
            | .error e => (b, some e)
            | .ok d2dRect =>
                match b.m_d2dImageBrush with
                | some ib =>
                    ({ b with
                         m_d2dImageBrush := some { ib with sourceRectangle := d2dRect }
                         m_isSourceRectSet := true }, none)
                | none => (b, some .nullDeref)

/-- `CanvasImageBrush::Close` (lines 382–388): close the device pointer
and release both native brushes unconditionally. -/
def Close (b : CanvasImageBrushState) : CanvasImageBrushState :=
  { b with
      m_deviceClosed := true
      m_d2dBitmapBrush := none
      m_d2dImageBrush := none }

/-- The `GetBrushFlags` flag set. -/
structure GetBrushFlags where
  noValidation : Bool
  alwaysInsertDpiCompensation : Bool
deriving DecidableEq, Repr

/-- A native `ID2D1Brush` returned by `GetD2DBrush`. -/
inductive D2DBrush
  | bitmapBrush (s : D2DBitmapBrushState)
  | imageBrush (s : D2DImageBrushState)
deriving DecidableEq, Repr

/-- An `ID2D1DeviceContext` argument, carrying the DPI `GetDpi` reads. -/
structure D2DDeviceContext where
  dpi : Int
deriving DecidableEq, Repr

/-- Modelled from the spec: the forced DPI sentinel passed to effect
realization under `AlwaysInsertDpiCompensation`; its numeric value is
defined outside `src/`. -/
def MAGIC_FORCE_DPI_COMPENSATION_VALUE : Int := -1

/-- `CanvasImageBrush::GetD2DBrush` (lines 390–421): the bitmap brush is
returned directly; the image brush is validated (source rectangle
required unless `NoValidation`), then any pending effect DPI fixup is
realized when a device context is supplied.  The second component is the
DPI passed to the effect realization, if it ran. -/
def GetD2DBrush (b : CanvasImageBrushState) (deviceContext : Option D2DDeviceContext)
    (flags : GetBrushFlags) : Except Err (Option D2DBrush × Option Int) :=
  if b.m_deviceClosed then .error .objectClosed
  else
    match b.m_d2dBitmapBrush with
    | some bb => .ok (some (.bitmapBrush bb), none)
    | none =>
        if !flags.noValidation && !b.m_isSourceRectSet then
          .error .imageBrushRequiresSourceRectangle
        else
          let fixupDpi : Option Int :=
            match b.m_effectNeedingDpiFixup, deviceContext with
            | some _, some ctx =>
                some (if flags.alwaysInsertDpiCompensation then
                        MAGIC_FORCE_DPI_COMPENSATION_VALUE
                      else ctx.dpi)
            | _, _ => none
          .ok (b.m_d2dImageBrush.map D2DBrush.imageBrush, fixupDpi)

/-- The interop constructor wrapping an existing `ID2D1BitmapBrush1`
(lines 49–57): starts with `m_isSourceRectSet = false`. -/
def CanvasImageBrushFromD2DBitmapBrush (bb : D2DBitmapBrushState) :
    CanvasImageBrushState :=
  { m_d2dBitmapBrush := some bb
    m_d2dImageBrush := none
    m_isSourceRectSet := false
    m_effectNeedingDpiFixup := none
    m_deviceClosed := false }

/-- The interop constructor wrapping an existing `ID2D1ImageBrush`
(lines 59–67): starts with `m_isSourceRectSet = true`. -/
def CanvasImageBrushFromD2DImageBrush (ib : D2DImageBrushState) :
    CanvasImageBrushState :=
  { m_d2dBitmapBrush := none
    m_d2dImageBrush := some ib
    m_isSourceRectSet := true
    m_effectNeedingDpiFixup := none
    m_deviceClosed := false }

/-- The factory constructor (lines 69–84, reached from
`CanvasImageBrushFactory::Create`/`CreateWithImage`): start empty, then
either `SetImage` the given image or switch to an empty bitmap brush.
If construction throws, no brush object exists, hence `Except`. -/
def CanvasImageBrushFromImage (device : CanvasDevice)
    (image : Option CanvasImage) : Except Err CanvasImageBrushState :=
  let b0 : CanvasImageBrushState :=
    { m_d2dBitmapBrush := none
      m_d2dImageBrush := none
      m_isSourceRectSet := false
      m_effectNeedingDpiFixup := none
      m_deviceClosed := false }
  match image with
  | some img =>
      match SetImage device b0 (some img) with
      | (b, none) => .ok b
      | (_, some e) => .error e
  | none => (SwitchToBitmapBrush device b0 none).map (·.1)

/-- A public mutating operation on a live brush, for stating properties of
arbitrary call sequences. -/
inductive BrushSetterOp
  | putImage (value : Option CanvasImage)
  | putSourceRectangle (value : RectRef)
  | putExtendX (value : CanvasEdgeBehavior)
  | putExtendY (value : CanvasEdgeBehavior)
  | putInterpolation (value : CanvasImageInterpolation)
deriving DecidableEq, Repr

/-- Dispatch one public setter call. -/
def applyOp (device : CanvasDevice) (b : CanvasImageBrushState) :
    BrushSetterOp → CanvasImageBrushState × Option Err
  | .putImage v => put_Image device b v
  | .putSourceRectangle v => put_SourceRectangle device b v
  | .putExtendX v => put_ExtendX b v
  | .putExtendY v => put_ExtendY b v
  | .putInterpolation v => put_Interpolation b v

/-- Run a sequence of public setter calls, keeping the state each call
leaves behind whether it succeeds or fails. -/
def runOps (device : CanvasDevice) (b : CanvasImageBrushState)
    (ops : List BrushSetterOp) : CanvasImageBrushState :=
  ops.foldl (fun s op => (applyOp device s op).1) b

/-- Exactly one of the two native brushes is populated. -/
def exactlyOneRepresentation (b : CanvasImageBrushState) : Bool :=
  b.m_d2dBitmapBrush.isSome != b.m_d2dImageBrush.isSome

/-- The state-machine invariant maintained across all public setters on a
live brush: not closed, exactly one representation, and a bitmap brush
never carries a set source rectangle. -/
def brushInvariant (b : CanvasImageBrushState) : Bool :=
  !b.m_deviceClosed && exactlyOneRepresentation b &&
    (!b.m_d2dBitmapBrush.isSome || !b.m_isSourceRectSet)

instance {e a : Type} [DecidableEq e] [DecidableEq a] : DecidableEq (Except e a) := fun x y =>
  match x, y with
  | .ok v, .ok w =>
      if h : v = w then .isTrue (congrArg Except.ok h)
      else .isFalse fun hc => h (Except.ok.inj hc)
  | .error v, .error w =>
      if h : v = w then .isTrue (congrArg Except.error h)
      else .isFalse fun hc => h (Except.error.inj hc)
  | .ok _, .error _ => .isFalse fun hc => Except.noConfusion hc
  | .error _, .ok _ => .isFalse fun hc => Except.noConfusion hc

/-- A device on which both native brush creations succeed. -/
def devBothOk : CanvasDevice := { createBitmapBrushOk := true, createImageBrushOk := true }

/-- Sample state: an empty factory-created brush (bitmap brush, no bitmap). -/
def sampleEmptyBrush : CanvasImageBrushState :=
  CanvasImageBrushFromD2DBitmapBrush (freshD2DBitmapBrushState none)

/-- Sample state: a bitmap-brush representation bound to bitmap 1. -/
def c4Brush : CanvasImageBrushState :=
  CanvasImageBrushFromD2DBitmapBrush (freshD2DBitmapBrushState (some 1))

/-- Sample state: an image-brush representation bound to the D2D bitmap 3,
with a source rectangle set (as the interop constructor leaves it). -/
def sampleImageBrush : CanvasImageBrushState :=
  CanvasImageBrushFromD2DImageBrush (freshD2DImageBrushState (some (.bitmap 3)))

/-- Sample state: the same image-brush representation without a source rectangle. -/
def sampleImageBrushNoRect : CanvasImageBrushState :=
  { sampleImageBrush with m_isSourceRectSet := false }

/-- A sample sequence of public setter calls. -/
def opsSample : List BrushSetterOp :=
  [.putSourceRectangle (.valid ⟨1, 2, 3, 4⟩), .putImage (some (.effect 5)),
   .putImage none, .putSourceRectangle .null, .putExtendX .wrap]

theorem ite_error_eq_ok_iff {α : Type} {c : Prop} [Decidable c] {e : Err} {v w : α} :
    ((if c then (Except.error e : Except Err α) else .ok v) = .ok w) ↔ (¬c ∧ w = v) := by
  split <;> simp_all [eq_comm]

theorem map_fst_ite_error_eq_ok_iff {α β : Type} {c : Prop} [Decidable c] {e : Err}
    {v : α × β} {w : α} :
    (Except.map (fun x => x.1)
      (if c then (Except.error e : Except Err (α × β)) else .ok v) = .ok w) ↔
      (¬c ∧ w = v.1) := by
  split <;> simp_all [Except.map, eq_comm]

theorem brushInvariant_applyOp (device : CanvasDevice) (b : CanvasImageBrushState)
    (op : BrushSetterOp) (h : brushInvariant b = true) :
    brushInvariant (applyOp device b op).1 = true := by
  obtain ⟨bb, ib, srs, fix, cl⟩ := b
  cases cl with
  | true => simp [brushInvariant] at h
  | false =>
  rcases bb with _ | bbv
  · -- no bitmap brush: image brush must be populated
    rcases ib with _ | ⟨iim, iex, iey, iip, iop, itr, isr⟩
    · simp [brushInvariant, exactlyOneRepresentation] at h
    · rcases op with value | value | v | v | v
      · -- putImage
        rcases value with _ | img
        · simp [applyOp, put_Image, SetImage, brushInvariant, exactlyOneRepresentation]
        · rcases img with n | n | n | n <;>
            cases srs <;>
            simp [applyOp, put_Image, SetImage, maybeAsBitmap, isGraphicsEffect,
              CanvasDevice.GetD2DImage, SwitchToBitmapBrush, SwitchToImageBrush,
              brushInvariant, exactlyOneRepresentation] <;>
            split <;>
            simp_all [brushInvariant, exactlyOneRepresentation, ite_error_eq_ok_iff, map_fst_ite_error_eq_ok_iff]
      · -- putSourceRectangle
        rcases value with _ | r | _
        · -- null: reset rect then try downgrade
          rcases iim with _ | im
          · simp [applyOp, put_SourceRectangle, TrySwitchFromImageBrushToBitmapBrush,
              SwitchToBitmapBrush, brushInvariant, exactlyOneRepresentation] <;>
            split <;> simp_all [brushInvariant, exactlyOneRepresentation, ite_error_eq_ok_iff, map_fst_ite_error_eq_ok_iff]
          · cases im <;>
              simp [applyOp, put_SourceRectangle, TrySwitchFromImageBrushToBitmapBrush,
                SwitchToBitmapBrush, brushInvariant, exactlyOneRepresentation] <;>
              split <;> simp_all [brushInvariant, exactlyOneRepresentation, ite_error_eq_ok_iff, map_fst_ite_error_eq_ok_iff]
        · simp [applyOp, put_SourceRectangle, GetD2DRectFromRectReference,
            brushInvariant, exactlyOneRepresentation]
        · simp [applyOp, put_SourceRectangle, GetD2DRectFromRectReference,
            brushInvariant, exactlyOneRepresentation]
      · simp [applyOp, put_ExtendX, brushInvariant, exactlyOneRepresentation]
      · simp [applyOp, put_ExtendY, brushInvariant, exactlyOneRepresentation]
      · simp [applyOp, put_Interpolation, brushInvariant, exactlyOneRepresentation]
  · -- bitmap brush populated: image brush empty, source rect not set
    rcases ib with _ | ibv
    · cases srs with
      | true => simp [brushInvariant, exactlyOneRepresentation] at h
      | false =>
        rcases op with value | value | v | v | v
        · rcases value with _ | img
          · simp [applyOp, put_Image, SetImage, brushInvariant, exactlyOneRepresentation]
          · rcases img with n | n | n | n <;>
              simp [applyOp, put_Image, SetImage, maybeAsBitmap, isGraphicsEffect,
                CanvasDevice.GetD2DImage, SwitchToBitmapBrush, SwitchToImageBrush,
                brushInvariant, exactlyOneRepresentation] <;>
              split <;>
              simp_all [brushInvariant, exactlyOneRepresentation, ite_error_eq_ok_iff, map_fst_ite_error_eq_ok_iff]
        · rcases value with _ | r | _ <;>
            simp [applyOp, put_SourceRectangle, GetD2DRectFromRectReference,
              SwitchToImageBrush, brushInvariant, exactlyOneRepresentation] <;>
            split <;> simp_all [brushInvariant, exactlyOneRepresentation, ite_error_eq_ok_iff, map_fst_ite_error_eq_ok_iff]
        · simp [applyOp, put_ExtendX, brushInvariant, exactlyOneRepresentation]
        · simp [applyOp, put_ExtendY, brushInvariant, exactlyOneRepresentation]
        · simp [applyOp, put_Interpolation, brushInvariant, exactlyOneRepresentation]
    · simp [brushInvariant, exactlyOneRepresentation] at h

theorem brushInvariant_create (device : CanvasDevice) (image : Option CanvasImage)
    (b0 : CanvasImageBrushState) (h : CanvasImageBrushFromImage device image = .ok b0) :
    brushInvariant b0 = true := by
  rcases image with _ | img
  · simp [CanvasImageBrushFromImage, SwitchToBitmapBrush,
      map_fst_ite_error_eq_ok_iff] at h
    simp [h, brushInvariant, exactlyOneRepresentation]
  · rcases img with n | n | n | n <;>
      rcases hbmp : device.createBitmapBrushOk <;>
      rcases himg : device.createImageBrushOk <;>
      simp [CanvasImageBrushFromImage, SetImage, maybeAsBitmap, isGraphicsEffect,
        CanvasDevice.GetD2DImage, SwitchToBitmapBrush, SwitchToImageBrush, Except.map,
        hbmp, himg] at h <;>
      (try subst h) <;>
      simp_all [brushInvariant, exactlyOneRepresentation]

theorem brushInvariant_runOps (device : CanvasDevice) (b : CanvasImageBrushState)
    (ops : List BrushSetterOp) (h : brushInvariant b = true) :
    brushInvariant (runOps device b ops) = true := by
  induction ops generalizing b with
  | nil => simpa [runOps] using h
  | cons op ops ih =>
      simpa [runOps, List.foldl] using ih (applyOp device b op).1 (brushInvariant_applyOp device b op h)

/-- C1: for every brush constructed through the factory and every sequence of
`put_Image` / `put_SourceRectangle` calls (and the other public setters), at
every observation point outside a call and before close exactly one of the two
native representations (`m_d2dBitmapBrush`, `m_d2dImageBrush`) is populated:
never both, and never neither after construction. -/
theorem C1_exactly_one_representation (device : CanvasDevice) (image : Option CanvasImage)
    (b0 : CanvasImageBrushState) (h : CanvasImageBrushFromImage device image = .ok b0)
    (ops : List BrushSetterOp) :
    exactlyOneRepresentation (runOps device b0 ops) = true := by
  have hinv := brushInvariant_runOps device b0 ops (brushInvariant_create device image b0 h)
  simp [brushInvariant] at hinv
  exact hinv.1.2

/-- C5: at every observation point of a factory-created brush mutated by public
setters, `m_isSourceRectSet = true` implies the current representation is the
general image brush; a brush in the bitmap-brush representation has
`m_isSourceRectSet = false` and `get_SourceRectangle` on it returns absent. -/
theorem C5_source_rect_implies_image_brush (device : CanvasDevice) (image : Option CanvasImage)
    (b0 : CanvasImageBrushState) (h : CanvasImageBrushFromImage device image = .ok b0)
    (ops : List BrushSetterOp) :
    (((runOps device b0 ops).m_isSourceRectSet = true →
        (runOps device b0 ops).m_d2dImageBrush.isSome = true) ∧
     ((runOps device b0 ops).m_d2dBitmapBrush.isSome = true →
        (runOps device b0 ops).m_isSourceRectSet = false ∧
        get_SourceRectangle (runOps device b0 ops) = .ok none)) := by
  have hinv := brushInvariant_runOps device b0 ops (brushInvariant_create device image b0 h)
  set b := runOps device b0 ops with hb
  obtain ⟨bb, ib, srs, fix, cl⟩ := b
  simp [brushInvariant, exactlyOneRepresentation] at hinv
  obtain ⟨⟨hcl, hone⟩, hbs⟩ := hinv
  rcases bb with _ | bbv <;> rcases ib with _ | ibv <;>
    simp_all [get_SourceRectangle]

theorem FromD2DRect_ToD2DRect (r : Rect) : FromD2DRect (ToD2DRect r) = r := by
  rcases r with ⟨x, y, w, h⟩
  simp [ToD2DRect, FromD2DRect]

/-- C6: `put_SourceRectangle` with a non-null readable rectangle on a brush in
the bitmap-brush representation switches it to the general image brush using
the currently bound bitmap as the initial image, applies the rectangle, sets
`m_isSourceRectSet = true`, and a subsequent `get_SourceRectangle` returns
exactly that rectangle. -/
theorem C6_put_rect_switches_to_image_brush (device : CanvasDevice)
    (b : CanvasImageBrushState) (bb : D2DBitmapBrushState) (r : Rect)
    (hcl : b.m_deviceClosed = false) (hbb : b.m_d2dBitmapBrush = some bb)
    (hib : b.m_d2dImageBrush = none) (hok : device.createImageBrushOk = true) :
    (put_SourceRectangle device b (.valid r)).2 = none ∧
    (put_SourceRectangle device b (.valid r)).1.m_d2dBitmapBrush = none ∧
    (put_SourceRectangle device b (.valid r)).1.m_d2dImageBrush =
      some { freshD2DImageBrushState (bb.bitmap.map D2DImage.bitmap) with
               extendX := bb.extendX, extendY := bb.extendY,
               interpolationMode := bb.interpolationMode, opacity := bb.opacity,
               transform := bb.transform, sourceRectangle := ToD2DRect r } ∧
    (put_SourceRectangle device b (.valid r)).1.m_isSourceRectSet = true ∧
    get_SourceRectangle (put_SourceRectangle device b (.valid r)).1 = .ok (some r) := by
  obtain ⟨bb0, ib0, srs, fix, cl⟩ := b
  simp at hcl hbb hib
  subst hcl hbb hib
  simp [put_SourceRectangle, SwitchToImageBrush, GetD2DRectFromRectReference, hok,
    get_SourceRectangle, freshD2DImageBrushState, FromD2DRect_ToD2DRect]

/-- C7: `put_SourceRectangle` with null on a brush in the general-image-brush
representation resets the native rectangle to the empty default, sets
`m_isSourceRectSet = false`, and downgrades to the bitmap-brush representation
exactly when the bound image is a plain bitmap or absent; a non-bitmap bound
image leaves the brush a general image brush with its image unchanged. -/
theorem C7_clear_rect_downgrade (device : CanvasDevice)
    (b : CanvasImageBrushState) (ib : D2DImageBrushState)
    (hcl : b.m_deviceClosed = false) (hbb : b.m_d2dBitmapBrush = none)
    (hib : b.m_d2dImageBrush = some ib) (hok : device.createBitmapBrushOk = true) :
    (put_SourceRectangle device b .null).2 = none ∧
    (put_SourceRectangle device b .null).1.m_isSourceRectSet = false ∧
    (∀ n, ib.image = some (.nonBitmap n) →
        (put_SourceRectangle device b .null).1.m_d2dImageBrush =
          some { ib with sourceRectangle := defaultD2DRect } ∧
        (put_SourceRectangle device b .null).1.m_d2dBitmapBrush = none) ∧
    (∀ n, ib.image = some (.bitmap n) →
        (put_SourceRectangle device b .null).1.m_d2dBitmapBrush =
          some { freshD2DBitmapBrushState (some n) with
                   extendX := ib.extendX, extendY := ib.extendY,
                   interpolationMode := ib.interpolationMode, opacity := ib.opacity,
                   transform := ib.transform } ∧
        (put_SourceRectangle device b .null).1.m_d2dImageBrush = none) ∧
    (ib.image = none →
        (put_SourceRectangle device b .null).1.m_d2dBitmapBrush =
          some { freshD2DBitmapBrushState none with
                   extendX := ib.extendX, extendY := ib.extendY,
                   interpolationMode := ib.interpolationMode, opacity := ib.opacity,
                   transform := ib.transform } ∧
        (put_SourceRectangle device b .null).1.m_d2dImageBrush = none) := by
  obtain ⟨bb0, ib0, srs, fix, cl⟩ := b
  simp at hcl hbb hib
  subst hcl hbb hib
  rcases him : ib.image with _ | im
  · simp [put_SourceRectangle, TrySwitchFromImageBrushToBitmapBrush, him,
      SwitchToBitmapBrush, hok, freshD2DBitmapBrushState, Except.map]
  · cases im <;>
      simp [put_SourceRectangle, TrySwitchFromImageBrushToBitmapBrush, him,
        SwitchToBitmapBrush, hok, freshD2DBitmapBrushState, Except.map]

/-- C8: `put_Image` with a null image clears the bound image on whichever
native representation is active and clears the pending DPI fixup, but never
changes the representation and never changes `m_isSourceRectSet`. -/
theorem C8_null_image (device : CanvasDevice) (b : CanvasImageBrushState)
    (hcl : b.m_deviceClosed = false) (hone : exactlyOneRepresentation b = true) :
    (put_Image device b none).2 = none ∧
    ((put_Image device b none).1.m_d2dBitmapBrush).isSome = b.m_d2dBitmapBrush.isSome ∧
    ((put_Image device b none).1.m_d2dImageBrush).isSome = b.m_d2dImageBrush.isSome ∧
    (put_Image device b none).1.m_isSourceRectSet = b.m_isSourceRectSet ∧
    (put_Image device b none).1.m_effectNeedingDpiFixup = none ∧
    GetD2DImage (put_Image device b none).1 = .ok none := by
  obtain ⟨bb, ib, srs, fix, cl⟩ := b
  simp at hcl
  subst hcl
  rcases bb with _ | bbv <;> rcases ib with _ | ibv <;>
    simp_all [exactlyOneRepresentation, put_Image, SetImage, GetD2DImage]

/-- C9: after `Close`, which releases both native handles unconditionally,
every accessor (get/put image, extend X/Y, interpolation, source rectangle,
and `GetD2DBrush`) fails with the use-after-close error. -/
theorem C9_use_after_close (b : CanvasImageBrushState) (device : CanvasDevice)
    (img : Option CanvasImage) (v : RectRef) (e1 e2 : CanvasEdgeBehavior)
    (ip : CanvasImageInterpolation) (ctx : Option D2DDeviceContext) (flags : GetBrushFlags) :
    get_Image (Close b) = .error .objectClosed ∧
    (put_Image device (Close b) img).2 = some .objectClosed ∧
    get_ExtendX (Close b) = .error .objectClosed ∧
    (put_ExtendX (Close b) e1).2 = some .objectClosed ∧
    get_ExtendY (Close b) = .error .objectClosed ∧
    (put_ExtendY (Close b) e2).2 = some .objectClosed ∧
    get_Interpolation (Close b) = .error .objectClosed ∧
    (put_Interpolation (Close b) ip).2 = some .objectClosed ∧
    get_SourceRectangle (Close b) = .error .objectClosed ∧
    (put_SourceRectangle device (Close b) v).2 = some .objectClosed ∧
    GetD2DBrush (Close b) ctx flags = .error .objectClosed := by
  simp [Close, get_Image, put_Image, get_ExtendX, put_ExtendX, get_ExtendY, put_ExtendY,
    get_Interpolation, put_Interpolation, get_SourceRectangle, put_SourceRectangle,
    GetD2DBrush]

/-- C10: a brush wrapping an existing native general image brush (the interop
constructor) starts with `m_isSourceRectSet = true` although no rectangle was
assigned through the wrapper: `get_SourceRectangle` returns whatever rectangle
the native brush carries, and `GetD2DBrush` passes the source-rectangle
validation. -/
theorem C10_interop_image_brush (ib : D2DImageBrushState)
    (ctx : Option D2DDeviceContext) (flags : GetBrushFlags) :
    (CanvasImageBrushFromD2DImageBrush ib).m_isSourceRectSet = true ∧
    get_SourceRectangle (CanvasImageBrushFromD2DImageBrush ib) =
      .ok (some (FromD2DRect ib.sourceRectangle)) ∧
    GetD2DBrush (CanvasImageBrushFromD2DImageBrush ib) ctx flags =
      .ok (some (.imageBrush ib), none) := by
  simp [CanvasImageBrushFromD2DImageBrush, get_SourceRectangle, GetD2DBrush]

/-- C2: styling properties survive a representation switch.  Setting extend X,
extend Y and interpolation on a bitmap brush, then assigning a non-bitmap image
(forcing the switch to the general image brush), reads back the same three
values, and symmetrically for the switch back to a bitmap brush; and the switch
routines copy extend-mode X, extend-mode Y, interpolation mode, opacity and the
2-D transform, in that fixed order, from the old native object to the new one
before releasing the old one (the recorded native-call trace). -/
theorem C2_switch_preserves_style :
    (∀ (device : CanvasDevice) (b : CanvasImageBrushState) (bb : D2DBitmapBrushState)
        (ex ey : CanvasEdgeBehavior) (ip : CanvasImageInterpolation) (img : CanvasImage),
      b.m_deviceClosed = false → b.m_d2dBitmapBrush = some bb → b.m_d2dImageBrush = none →
      device.createImageBrushOk = true → maybeAsBitmap img = none →
      (CanvasDevice.GetD2DImage device img).toOption.isSome = true →
      ((put_Image device
          ((put_Interpolation ((put_ExtendY ((put_ExtendX b ex).1) ey).1) ip).1)
          (some img)).2 = none ∧
       (put_Image device
          ((put_Interpolation ((put_ExtendY ((put_ExtendX b ex).1) ey).1) ip).1)
          (some img)).1.m_d2dImageBrush.isSome = true ∧
       get_ExtendX (put_Image device
          ((put_Interpolation ((put_ExtendY ((put_ExtendX b ex).1) ey).1) ip).1)
          (some img)).1 = .ok ex ∧
       get_ExtendY (put_Image device
          ((put_Interpolation ((put_ExtendY ((put_ExtendX b ex).1) ey).1) ip).1)
          (some img)).1 = .ok ey ∧
       get_Interpolation (put_Image device
          ((put_Interpolation ((put_ExtendY ((put_ExtendX b ex).1) ey).1) ip).1)
          (some img)).1 = .ok ip)) ∧
    (∀ (device : CanvasDevice) (b : CanvasImageBrushState) (ib : D2DImageBrushState)
        (ex ey : CanvasEdgeBehavior) (ip : CanvasImageInterpolation) (n : Nat),
      b.m_deviceClosed = false → b.m_d2dBitmapBrush = none → b.m_d2dImageBrush = some ib →
      b.m_isSourceRectSet = false → device.createBitmapBrushOk = true →
      ((put_Image device
          ((put_Interpolation ((put_ExtendY ((put_ExtendX b ex).1) ey).1) ip).1)
          (some (.bitmap n))).2 = none ∧
       (put_Image device
          ((put_Interpolation ((put_ExtendY ((put_ExtendX b ex).1) ey).1) ip).1)
          (some (.bitmap n))).1.m_d2dBitmapBrush.isSome = true ∧
       get_ExtendX (put_Image device
          ((put_Interpolation ((put_ExtendY ((put_ExtendX b ex).1) ey).1) ip).1)
          (some (.bitmap n))).1 = .ok ex ∧
       get_ExtendY (put_Image device
          ((put_Interpolation ((put_ExtendY ((put_ExtendX b ex).1) ey).1) ip).1)
          (some (.bitmap n))).1 = .ok ey ∧
       get_Interpolation (put_Image device
          ((put_Interpolation ((put_ExtendY ((put_ExtendX b ex).1) ey).1) ip).1)
          (some (.bitmap n))).1 = .ok ip)) ∧
    (∀ (device : CanvasDevice) (b : CanvasImageBrushState) (bb : D2DBitmapBrushState)
        (image : Option D2DImage),
      b.m_deviceClosed = false → b.m_d2dBitmapBrush = some bb →
      device.createImageBrushOk = true →
      SwitchToImageBrush device b image =
        .ok ({ b with
                 m_d2dImageBrush := some { freshD2DImageBrushState image with
                     extendX := bb.extendX, extendY := bb.extendY,
                     interpolationMode := bb.interpolationMode, opacity := bb.opacity,
                     transform := bb.transform }
                 m_d2dBitmapBrush := none },
             [.createBrush, .setExtendModeX bb.extendX, .setExtendModeY bb.extendY,
              .setInterpolationMode bb.interpolationMode, .setOpacity bb.opacity,
              .setTransform bb.transform, .releaseOld, .setResource])) ∧
    (∀ (device : CanvasDevice) (b : CanvasImageBrushState) (ib : D2DImageBrushState)
        (bitmap : Option Nat),
      b.m_deviceClosed = false → b.m_d2dImageBrush = some ib →
      device.createBitmapBrushOk = true →
      SwitchToBitmapBrush device b bitmap =
        .ok ({ b with
                 m_d2dBitmapBrush := some { freshD2DBitmapBrushState bitmap with
                     extendX := ib.extendX, extendY := ib.extendY,
                     interpolationMode := ib.interpolationMode, opacity := ib.opacity,
                     transform := ib.transform }
                 m_d2dImageBrush := none },
             [.createBrush, .setExtendModeX ib.extendX, .setExtendModeY ib.extendY,
              .setInterpolationMode ib.interpolationMode, .setOpacity ib.opacity,
              .setTransform ib.transform, .releaseOld, .setResource])) := by
  refine ⟨?_, ?_, ?_, ?_⟩
  · intro device b bb ex ey ip img hcl hbb hib hok hnb hres
    obtain ⟨bb0, ib0, srs, fix, cl⟩ := b
    simp at hcl hbb hib
    subst hcl hbb hib
    rcases img with n | n | n | n <;> cases srs <;>
      simp_all [maybeAsBitmap, CanvasDevice.GetD2DImage, Except.map, Except.toOption,
        put_ExtendX,
        put_ExtendY, put_Interpolation, put_Image, SetImage, isGraphicsEffect,
        SwitchToImageBrush, get_ExtendX, get_ExtendY, get_Interpolation, hok]
  · intro device b ib ex ey ip n hcl hbb hib hsrs hok
    obtain ⟨bb0, ib0, srs, fix, cl⟩ := b
    simp at hcl hbb hib hsrs
    subst hcl hbb hib hsrs
    simp_all [maybeAsBitmap, Except.map, put_ExtendX, put_ExtendY, put_Interpolation,
      put_Image, SetImage, SwitchToBitmapBrush, get_ExtendX, get_ExtendY,
      get_Interpolation, hok]
  · intro device b bb image hcl hbb hok
    obtain ⟨bb0, ib0, srs, fix, cl⟩ := b
    simp at hcl hbb
    subst hcl hbb
    simp [SwitchToImageBrush, hok]
  · intro device b ib bitmap hcl hib hok
    obtain ⟨bb0, ib0, srs, fix, cl⟩ := b
    simp at hcl hib
    subst hcl hib
    simp [SwitchToBitmapBrush, hok]

/-- C3: `GetD2DBrush` on a non-closed brush in the general-image-brush
representation with no source rectangle set fails with the
invalid-configuration error unless the `NoValidation` flag is passed; on a
non-closed brush in the bitmap-brush representation it always succeeds and
returns the bitmap-brush handle directly. -/
theorem C3_resolve_for_drawing :
    (∀ (b : CanvasImageBrushState) (ctx : Option D2DDeviceContext) (flags : GetBrushFlags),
      b.m_deviceClosed = false → b.m_d2dBitmapBrush = none →
      b.m_d2dImageBrush.isSome = true → b.m_isSourceRectSet = false →
      flags.noValidation = false →
      GetD2DBrush b ctx flags = .error .imageBrushRequiresSourceRectangle) ∧
    (∀ (b : CanvasImageBrushState) (ctx : Option D2DDeviceContext) (flags : GetBrushFlags),
      b.m_deviceClosed = false → b.m_d2dBitmapBrush = none →
      b.m_d2dImageBrush.isSome = true → flags.noValidation = true →
      (GetD2DBrush b ctx flags).toOption.isSome = true) ∧
    (∀ (b : CanvasImageBrushState) (bb : D2DBitmapBrushState)
        (ctx : Option D2DDeviceContext) (flags : GetBrushFlags),
      b.m_deviceClosed = false → b.m_d2dBitmapBrush = some bb →
      GetD2DBrush b ctx flags = .ok (some (.bitmapBrush bb), none)) := by
  refine ⟨?_, ?_, ?_⟩
  · intro b ctx flags hcl hbb hib hsrs hnv
    obtain ⟨bb0, ib0, srs, fix, cl⟩ := b
    simp at hcl hbb hsrs
    subst hcl hbb hsrs
    simp [GetD2DBrush, hnv]
  · intro b ctx flags hcl hbb hib hnv
    obtain ⟨bb0, ib0, srs, fix, cl⟩ := b
    simp at hcl hbb
    subst hcl hbb
    simp [GetD2DBrush, Except.toOption, hnv]
  · intro b bb ctx flags hcl hbb
    obtain ⟨bb0, ib0, srs, fix, cl⟩ := b
    simp at hcl hbb
    subst hcl hbb
    simp [GetD2DBrush]

/-- C4 counterexample: on a factory-created bitmap-representation brush,
`put_SourceRectangle` with a rectangle reference whose value cannot be read
fails, yet leaves the brush switched to the general-image-brush
representation — the failing call does not leave the state unchanged. -/
theorem C4_counterexample :
    CanvasImageBrushFromImage devBothOk (some (.bitmap 1)) = .ok c4Brush ∧
    (put_SourceRectangle devBothOk c4Brush .broken).2 = some .rectRefValueFailed ∧
    (put_SourceRectangle devBothOk c4Brush .broken).1 ≠ c4Brush ∧
    (put_SourceRectangle devBothOk c4Brush .broken).1.m_d2dBitmapBrush = none ∧
    (put_SourceRectangle devBothOk c4Brush .broken).1.m_d2dImageBrush.isSome = true := by
  decide

/-- C4 (amended): if a public setter fails, the brush state is exactly what it
was before the call, except that (a) `put_Image` clears the pending DPI fixup
even when it fails, (b) `put_SourceRectangle` on a bitmap-representation brush
with an unreadable rectangle reference leaves the brush switched to the
general-image-brush representation (`m_isSourceRectSet` unchanged), and (c)
`put_SourceRectangle` with null on a general-image-brush whose downgrade fails
at native brush creation leaves the native rectangle reset and
`m_isSourceRectSet = false`. -/
theorem C4_failing_calls_amended :
    (∀ (b : CanvasImageBrushState) (v : CanvasEdgeBehavior),
      ((put_ExtendX b v).2).isSome = true → (put_ExtendX b v).1 = b) ∧
    (∀ (b : CanvasImageBrushState) (v : CanvasEdgeBehavior),
      ((put_ExtendY b v).2).isSome = true → (put_ExtendY b v).1 = b) ∧
    (∀ (b : CanvasImageBrushState) (v : CanvasImageInterpolation),
      ((put_Interpolation b v).2).isSome = true → (put_Interpolation b v).1 = b) ∧
    (∀ (device : CanvasDevice) (b : CanvasImageBrushState) (value : Option CanvasImage),
      ((put_Image device b value).2).isSome = true →
      ((put_Image device b value).1 = b ∨
       (put_Image device b value).1 = { b with m_effectNeedingDpiFixup := none })) ∧
    (∀ (device : CanvasDevice) (b : CanvasImageBrushState) (value : RectRef),
      ((put_SourceRectangle device b value).2).isSome = true →
      ((put_SourceRectangle device b value).1 = b ∨
       (value = RectRef.broken ∧ b.m_d2dBitmapBrush.isSome = true ∧
         (put_SourceRectangle device b value).1.m_d2dBitmapBrush = none ∧
         (put_SourceRectangle device b value).1.m_d2dImageBrush.isSome = true ∧
         (put_SourceRectangle device b value).1.m_isSourceRectSet = b.m_isSourceRectSet ∧
         (put_SourceRectangle device b value).1.m_effectNeedingDpiFixup =
           b.m_effectNeedingDpiFixup) ∨
       (value = RectRef.null ∧ device.createBitmapBrushOk = false ∧
         (∃ ib, b.m_d2dImageBrush = some ib ∧
           (put_SourceRectangle device b value).1 =
             { b with
                 m_d2dImageBrush := some { ib with sourceRectangle := defaultD2DRect }
                 m_isSourceRectSet := false })))) := by
  refine ⟨?_, ?_, ?_, ?_, ?_⟩
  · intro b v h
    obtain ⟨bb, ib, srs, fix, cl⟩ := b
    cases cl <;> rcases bb with _ | bbv <;> rcases ib with _ | ibv <;>
      simp_all [put_ExtendX]
  · intro b v h
    obtain ⟨bb, ib, srs, fix, cl⟩ := b
    cases cl <;> rcases bb with _ | bbv <;> rcases ib with _ | ibv <;>
      simp_all [put_ExtendY]
  · intro b v h
    obtain ⟨bb, ib, srs, fix, cl⟩ := b
    cases cl <;> rcases bb with _ | bbv <;> rcases ib with _ | ibv <;>
      simp_all [put_Interpolation]
  · intro device b value h
    obtain ⟨bb, ib, srs, fix, cl⟩ := b
    cases cl
    case true => simp_all [put_Image]
    case false =>
    rcases value with _ | img
    · rcases bb with _ | bbv <;> rcases ib with _ | ibv <;>
        simp_all [put_Image, SetImage]
    · rcases img with n | n | n | n <;> cases srs <;>
        rcases bb with _ | bbv <;> rcases ib with _ | ibv <;>
        rcases hcb : device.createBitmapBrushOk <;>
        rcases hci : device.createImageBrushOk <;>
        simp_all [put_Image, SetImage, maybeAsBitmap, isGraphicsEffect,
          CanvasDevice.GetD2DImage, SwitchToBitmapBrush, SwitchToImageBrush, Except.map]
  · intro device b value h
    obtain ⟨bb, ib, srs, fix, cl⟩ := b
    cases cl
    case true => simp_all [put_SourceRectangle]
    case false =>
    rcases bb with _ | bbv
    · rcases ib with _ | ibv
      · rcases value with _ | r | _ <;>
          simp_all [put_SourceRectangle, GetD2DRectFromRectReference]
      · rcases value with _ | r | _
        · rcases him : ibv.image with _ | im
          · rcases hcb : device.createBitmapBrushOk <;>
              simp_all [put_SourceRectangle, TrySwitchFromImageBrushToBitmapBrush,
                SwitchToBitmapBrush, Except.map]
          · cases im <;> rcases hcb : device.createBitmapBrushOk <;>
              simp_all [put_SourceRectangle, TrySwitchFromImageBrushToBitmapBrush,
                SwitchToBitmapBrush, Except.map]
        · simp_all [put_SourceRectangle, GetD2DRectFromRectReference]
        · simp_all [put_SourceRectangle, GetD2DRectFromRectReference]
    · rcases value with _ | r | _ <;>
        rcases hci : device.createImageBrushOk <;>
        simp_all [put_SourceRectangle, SwitchToImageBrush, GetD2DRectFromRectReference]

/-- Witness for C1 at concrete inputs. -/
theorem C1_exactly_one_representation_witness :
    exactlyOneRepresentation (runOps devBothOk sampleEmptyBrush opsSample) = true :=
  C1_exactly_one_representation devBothOk none sampleEmptyBrush (by decide) opsSample

/-- Witness for C5 at concrete inputs. -/
theorem C5_source_rect_implies_image_brush_witness :
    (((runOps devBothOk sampleEmptyBrush opsSample).m_isSourceRectSet = true →
        (runOps devBothOk sampleEmptyBrush opsSample).m_d2dImageBrush.isSome = true) ∧
     ((runOps devBothOk sampleEmptyBrush opsSample).m_d2dBitmapBrush.isSome = true →
        (runOps devBothOk sampleEmptyBrush opsSample).m_isSourceRectSet = false ∧
        get_SourceRectangle (runOps devBothOk sampleEmptyBrush opsSample) = .ok none)) :=
  C5_source_rect_implies_image_brush devBothOk none sampleEmptyBrush (by decide) opsSample

/-- Witness for C2 at concrete inputs. -/
theorem C2_switch_preserves_style_witness :
    get_ExtendX (put_Image devBothOk
      ((put_Interpolation ((put_ExtendY ((put_ExtendX c4Brush .wrap).1) .mirror).1) .linear).1)
      (some (.effect 2))).1 = .ok .wrap ∧
    get_ExtendY (put_Image devBothOk
      ((put_Interpolation ((put_ExtendY ((put_ExtendX sampleImageBrushNoRect .wrap).1) .mirror).1) .linear).1)
      (some (.bitmap 3))).1 = .ok .mirror ∧
    (SwitchToImageBrush devBothOk c4Brush none).toOption.isSome = true ∧
    (SwitchToBitmapBrush devBothOk sampleImageBrushNoRect none).toOption.isSome = true := by
  refine ⟨(C2_switch_preserves_style.1 devBothOk c4Brush (freshD2DBitmapBrushState (some 1))
            .wrap .mirror .linear (.effect 2) rfl rfl rfl rfl rfl (by decide)).2.2.1,
          (C2_switch_preserves_style.2.1 devBothOk sampleImageBrushNoRect
            (freshD2DImageBrushState (some (.bitmap 3)))
            .wrap .mirror .linear 3 rfl rfl rfl rfl rfl).2.2.2.1, ?_, ?_⟩
  · rw [C2_switch_preserves_style.2.2.1 devBothOk c4Brush
      (freshD2DBitmapBrushState (some 1)) none rfl rfl rfl]
    rfl
  · rw [C2_switch_preserves_style.2.2.2 devBothOk sampleImageBrushNoRect
      (freshD2DImageBrushState (some (.bitmap 3))) none rfl rfl rfl]
    rfl

/-- Witness for C3 at concrete inputs. -/
theorem C3_resolve_for_drawing_witness :
    GetD2DBrush sampleImageBrushNoRect none ⟨false, false⟩ =
      .error .imageBrushRequiresSourceRectangle ∧
    (GetD2DBrush sampleImageBrushNoRect none ⟨true, false⟩).toOption.isSome = true ∧
    GetD2DBrush c4Brush none ⟨false, false⟩ =
      .ok (some (.bitmapBrush (freshD2DBitmapBrushState (some 1))), none) :=
  ⟨C3_resolve_for_drawing.1 sampleImageBrushNoRect none ⟨false, false⟩ rfl rfl rfl rfl rfl,
   C3_resolve_for_drawing.2.1 sampleImageBrushNoRect none ⟨true, false⟩ rfl rfl rfl rfl,
   C3_resolve_for_drawing.2.2 c4Brush (freshD2DBitmapBrushState (some 1)) none ⟨false, false⟩ rfl rfl⟩

/-- Witness for the amended C4 at the concrete failing input. -/
theorem C4_failing_calls_amended_witness :
    ((put_SourceRectangle devBothOk c4Brush RectRef.broken).1 = c4Brush ∨
     (RectRef.broken = RectRef.broken ∧ c4Brush.m_d2dBitmapBrush.isSome = true ∧
       (put_SourceRectangle devBothOk c4Brush RectRef.broken).1.m_d2dBitmapBrush = none ∧
       (put_SourceRectangle devBothOk c4Brush RectRef.broken).1.m_d2dImageBrush.isSome = true ∧
       (put_SourceRectangle devBothOk c4Brush RectRef.broken).1.m_isSourceRectSet =
         c4Brush.m_isSourceRectSet ∧
       (put_SourceRectangle devBothOk c4Brush RectRef.broken).1.m_effectNeedingDpiFixup =
         c4Brush.m_effectNeedingDpiFixup) ∨
     (RectRef.broken = RectRef.null ∧ devBothOk.createBitmapBrushOk = false ∧
       (∃ ib, c4Brush.m_d2dImageBrush = some ib ∧
         (put_SourceRectangle devBothOk c4Brush RectRef.broken).1 =
           { c4Brush with
               m_d2dImageBrush := some { ib with sourceRectangle := defaultD2DRect }
               m_isSourceRectSet := false }))) :=
  C4_failing_calls_amended.2.2.2.2 devBothOk c4Brush RectRef.broken (by decide)

/-- Witness for C6 at concrete inputs. -/
theorem C6_put_rect_switches_to_image_brush_witness :
    get_SourceRectangle (put_SourceRectangle devBothOk c4Brush (.valid ⟨1, 2, 3, 4⟩)).1 =
      .ok (some ⟨1, 2, 3, 4⟩) :=
  (C6_put_rect_switches_to_image_brush devBothOk c4Brush
    (freshD2DBitmapBrushState (some 1)) ⟨1, 2, 3, 4⟩ rfl rfl rfl rfl).2.2.2.2

/-- Witness for C7 at concrete inputs. -/
theorem C7_clear_rect_downgrade_witness :
    (put_SourceRectangle devBothOk sampleImageBrush RectRef.null).2 = none ∧
    (put_SourceRectangle devBothOk sampleImageBrush RectRef.null).1.m_isSourceRectSet = false ∧
    (put_SourceRectangle devBothOk sampleImageBrush RectRef.null).1.m_d2dImageBrush = none := by
  have h := C7_clear_rect_downgrade devBothOk sampleImageBrush
    (freshD2DImageBrushState (some (.bitmap 3))) rfl rfl rfl rfl
  exact ⟨h.1, h.2.1, (h.2.2.2.1 3 rfl).2⟩

/-- Witness for C8 at concrete inputs. -/
theorem C8_null_image_witness :
    (put_Image devBothOk c4Brush none).2 = none ∧
    GetD2DImage (put_Image devBothOk c4Brush none).1 = .ok none := by
  have h := C8_null_image devBothOk c4Brush rfl (by decide)
  exact ⟨h.1, h.2.2.2.2.2⟩
